import Mathlib

/-!
Verification of the message-processing pipeline of the kaoyan-408 QQ robot.

Shallow embedding of the core Python modules:
* `src/storage/models.py`   — data models (`TokenQuota`, `BanRecord`, `Context`, …)
* `src/storage/database.py` — repository operations on quotas
* `src/managers/token.py`   — `TokenController` (quota checking, consumption)
* `src/managers/ban.py`     — `BanManager` (abuse detection)
* `src/core/context.py`     — `ContextManager` / `HybridContextStorage`
* `src/core/intent.py`      — `IntentRecognizer`
* `src/core/router.py`      — `MessageRouter` (`_pre_check`, `route_message`)

Timestamps (`datetime`) are embedded as `Int` seconds; a Python timedelta
comparison `(now - ts).total_seconds() < w` becomes `now - ts < w`.
Monetary-style counters validated `ge=0` by pydantic are embedded as `Nat`,
so Python's `max(0, a - b)` is Nat subtraction `a - b`.
-/

namespace QQRobot

/-! ## storage/models.py — enums -/

/-- `BanType` from `models.py`. -/
inductive BanType where
  | temporary
  | permanent
deriving DecidableEq, Repr

/-- `BanReason` from `models.py`. -/
inductive BanReason where
  | rate_limit_exceeded
  | token_abuse
  | malicious_behavior
  | spamming
  | manual
deriving DecidableEq, Repr

/-- `ContextType` from `models.py` (`private`/`group`/`multi_user`/`role_play`). -/
inductive ContextType where
  | privateCtx
  | groupCtx
  | multiUser
  | rolePlay
deriving DecidableEq, Repr

/-- The `.value` string of a `ContextType` member. -/
def ContextType.val : ContextType → String
  | .privateCtx => "private"
  | .groupCtx => "group"
  | .multiUser => "multi_user"
  | .rolePlay => "role_play"

/-- `ContextStatus` from `models.py`. -/
inductive ContextStatus where
  | active
  | paused
  | expired
  | archived
  | deleted
deriving DecidableEq, Repr

/-- `MessageType` from `models.py`. -/
inductive MessageType where
  | text
  | image
  | voice
  | system
  | command
deriving DecidableEq, Repr

/-- `MessageRole` from `models.py`. -/
inductive MessageRole where
  | user
  | assistant
  | system
deriving DecidableEq, Repr

/-! ## storage/models.py — TokenQuota -/

/-- `TokenQuota` from `models.py`.  `minute_requests` is the per-minute
request timestamp log (seconds). -/
structure TokenQuota where
  user_id : String
  total_quota : Nat
  used : Nat
  daily_limit : Nat
  daily_used : Nat
  daily_reset : Int
  minute_limit : Nat
  minute_requests : List Int
deriving DecidableEq, Repr

/-- Property `TokenQuota.remaining`: `max(0, total_quota - used)`. -/
def TokenQuota.remaining (q : TokenQuota) : Nat :=
  q.total_quota - q.used

/-- Property `TokenQuota.daily_remaining`: `max(0, daily_limit - daily_used)`. -/
def TokenQuota.daily_remaining (q : TokenQuota) : Nat :=
  q.daily_limit - q.daily_used

/-- Property `TokenQuota.is_minute_limit_exceeded`: requests of the trailing
60 seconds counted against `minute_limit`. -/
def TokenQuota.is_minute_limit_exceeded (q : TokenQuota) (now : Int) : Bool :=
  (q.minute_requests.filter (fun ts => now - ts < 60)).length ≥ q.minute_limit

/-! ## storage/models.py — BanRecord -/

/-- `BanRecord` from `models.py`. -/
structure BanRecord where
  user_id : String
  reason : BanReason
  ban_type : BanType
  started_at : Int
  expires_at : Option Int
  details : String
deriving DecidableEq, Repr

/-- Property `BanRecord.is_active` (at time `now`). -/
def BanRecord.is_active (r : BanRecord) (now : Int) : Bool :=
  if r.ban_type = BanType.permanent then true
  else
    match r.expires_at with
    | none => false
    | some t => now < t

/-- Property `BanRecord.remaining_seconds` (at time `now`): `None` for a
permanent ban, otherwise `max(0, expires_at - now)`. -/
def BanRecord.remaining_seconds (r : BanRecord) (now : Int) : Option Int :=
  if r.ban_type = BanType.permanent then none
  else
    match r.expires_at with
    | none => some 0
    | some t => some (max 0 (t - now))

/-! ## storage/database.py — TokenQuotaRepository -/

/-- `TokenQuotaRepository.increment_used`: adds `tokens` to `used` and
`daily_used`. -/
def incrementUsed (q : TokenQuota) (tokens : Nat) : TokenQuota :=
  { q with used := q.used + tokens, daily_used := q.daily_used + tokens }

/-- `TokenQuotaRepository.reset_daily`: zeroes `daily_used` and advances
`daily_reset` to `now + 1 day`. -/
def resetDailyQuota (q : TokenQuota) (now : Int) : TokenQuota :=
  { q with daily_used := 0, daily_reset := now + 86400 }

/-! ## managers/token.py — TokenController

The single-user slice of the quota store is an `Option TokenQuota` (the
repository row for that user, absent until lazily created). -/

/-- `TokenController._create_default_quota`. -/
def createDefaultQuota (uid : String) (now : Int) : TokenQuota :=
  { user_id := uid
    total_quota := 50000
    used := 0
    daily_limit := 5000
    daily_used := 0
    daily_reset := now + 86400
    minute_limit := 200
    minute_requests := [] }

/-- `TokenController.get_quota`: lazily creates a default quota, otherwise
applies `_check_and_reset_daily` (reset fires when `now ≥ daily_reset`).
The returned quota is also the persisted row. -/
def getQuota (stored : Option TokenQuota) (uid : String) (now : Int) : TokenQuota :=
  match stored with
  | none => createDefaultQuota uid now
  | some q => if q.daily_reset ≤ now then resetDailyQuota q now else q

/-- `TokenController.check_quota`: total quota, then daily quota, then the
per-minute window; first failure wins.  Returns the (ok, message) pair and
the fetched (possibly reset) quota row. -/
def checkQuota (stored : Option TokenQuota) (uid : String) (tokens : Nat)
    (now : Int) : (Bool × String) × TokenQuota :=
  let q := getQuota stored uid now
  if q.remaining < tokens then
    let rem := q.remaining
    ((false, s!"配额不足，剩余 {rem} Token"), q)
  else if q.daily_remaining < tokens then
    let rem := q.daily_remaining
    ((false, s!"今日配额不足，剩余 {rem} Token"), q)
  else if q.is_minute_limit_exceeded now then
    ((false, "请求过于频繁，请稍后再试"), q)
  else
    ((true, ""), q)

/-- `TokenController.check_minute_limit`. -/
def checkMinuteLimit (stored : Option TokenQuota) (uid : String) (now : Int) : Bool :=
  !(getQuota stored uid now).is_minute_limit_exceeded now

/-- `TokenController.check_daily_limit`. -/
def checkDailyLimit (stored : Option TokenQuota) (uid : String) (now : Int) : Bool :=
  (getQuota stored uid now).daily_remaining > 0

/-- `TokenController._record_request`: prunes entries ≥ 60 s old and appends
the current timestamp. -/
def recordRequest (q : TokenQuota) (now : Int) : TokenQuota :=
  { q with minute_requests :=
      (q.minute_requests.filter (fun ts => now - ts < 60)) ++ [now] }

/-- `TokenController.consume`: re-validates via `check_quota`; on success
increments `used`/`daily_used` and records the request timestamp; on failure
returns `false` and the fetched quota row. -/
def consume (stored : Option TokenQuota) (uid : String) (tokens : Nat)
    (now : Int) : Bool × TokenQuota :=
  let res := checkQuota stored uid tokens now
  if res.fst.fst then
    (true, recordRequest (incrementUsed res.snd tokens) now)
  else
    (false, res.snd)

/-! ## managers/ban.py — BanManager -/

/-- `DEFAULT_DETECTION_RULES` from `ban.py` (merged rule dictionary). -/
structure DetectionRules where
  rapid_request_threshold : Nat
  rapid_request_window : Int
  token_burst_threshold : Nat
  token_rate_threshold : Nat
  spam_message_threshold : Nat
  spam_window : Int
  repeat_threshold : Nat
  repeat_window : Int
deriving DecidableEq, Repr

/-- The default detection rule values of `ban.py`. -/
def defaultDetectionRules : DetectionRules :=
  { rapid_request_threshold := 10
    rapid_request_window := 60
    token_burst_threshold := 1000
    token_rate_threshold := 5000
    spam_message_threshold := 5
    spam_window := 10
    repeat_threshold := 3
    repeat_window := 30 }

/-- The per-user slice of `BanManager`'s in-memory sliding-window trackers
(`_user_requests`, `_user_messages`, `_user_content`). -/
structure TrackState where
  requests : List Int
  messages : List Int
  contents : List (Int × String)
deriving DecidableEq, Repr

/-- `BanManager._detect_rapid_requests`: prune the request window, append
`now`, flag when the count exceeds the threshold.  Returns the flag and the
updated window. -/
def detectRapidRequests (rules : DetectionRules) (reqs : List Int)
    (now : Int) : Bool × List Int :=
  let pruned := reqs.filter (fun ts => now - ts < rules.rapid_request_window)
  let upd := pruned ++ [now]
  (upd.length > rules.rapid_request_threshold, upd)

/-- `BanManager._detect_token_abuse`: single-call burst detection only. -/
def detectTokenAbuse (rules : DetectionRules) (tokens_used : Nat) : Bool :=
  tokens_used > rules.token_burst_threshold

/-- `BanManager._detect_spam`: prune the message window, append `now`, flag
when the count exceeds the threshold. -/
def detectSpam (rules : DetectionRules) (msgs : List Int)
    (now : Int) : Bool × List Int :=
  let pruned := msgs.filter (fun ts => now - ts < rules.spam_window)
  let upd := pruned ++ [now]
  (upd.length > rules.spam_message_threshold, upd)

/-- `BanManager._detect_repeated_content`: prune the content window, count
entries equal to the current content, then append the new pair; flag when
the count reaches the threshold. -/
def detectRepeatedContent (rules : DetectionRules)
    (contents : List (Int × String)) (content : String)
    (now : Int) : Bool × List (Int × String) :=
  if content = "" then (false, contents)
  else
    let pruned := contents.filter (fun p => now - p.fst < rules.repeat_window)
    let cnt := (pruned.filter (fun p => p.snd = content)).length
    let upd := pruned ++ [(now, content)]
    (cnt ≥ rules.repeat_threshold, upd)

/-- `BanManager.detect_abuse`: the four ordered heuristics, returning on
first match.  The rapid-request window is always updated; the spam and
repeated-content windows only when the message content is non-empty and
the earlier heuristics did not fire. -/
def detectAbuse (rules : DetectionRules) (tr : TrackState) (content : String)
    (tokens_used : Nat) (now : Int) : (Bool × Option String) × TrackState :=
  let rapid := detectRapidRequests rules tr.requests now
  let tr1 := { tr with requests := rapid.snd }
  if rapid.fst then
    ((true, some "请求过于频繁"), tr1)
  else if tokens_used > 0 && detectTokenAbuse rules tokens_used then
    ((true, some "Token消耗异常"), tr1)
  else if content ≠ "" then
    let spam := detectSpam rules tr1.messages now
    let tr2 := { tr1 with messages := spam.snd }
    if spam.fst then
      ((true, some "检测到刷屏行为"), tr2)
    else
      let rep := detectRepeatedContent rules tr2.contents content now
      let tr3 := { tr2 with contents := rep.snd }
      if rep.fst then
        ((true, some "发送重复内容"), tr3)
      else
        ((false, none), tr3)
  else
    ((false, none), tr1)

/-- `BanManager.check_ban_status`, over the repository's `get_active_ban`
result: the record is returned only while `is_active`. -/
def checkBanStatus (banRec : Option BanRecord) (now : Int) : Option BanRecord :=
  match banRec with
  | some r => if r.is_active now then some r else none
  | none => none

/-- `BanManager.is_banned`. -/
def isBanned (banRec : Option BanRecord) (now : Int) : Bool :=
  (checkBanStatus banRec now).isSome

/-- `BanManager.get_remaining_ban_time` (seconds; `none` both for "not
banned" and for a permanent ban). -/
def getRemainingBanTime (banRec : Option BanRecord) (now : Int) : Option Int :=
  match checkBanStatus banRec now with
  | some r => r.remaining_seconds now
  | none => none

/-! ## core/context.py — ChatMessage, Context, ContextManager -/

/-- `ChatMessage` from `models.py` (metadata dictionary omitted). -/
structure ChatMessage where
  message_id : String
  sender_id : String
  sender_name : String
  role : MessageRole
  content : String
  message_type : MessageType
  timestamp : Int
  is_system : Bool
deriving DecidableEq, Repr

/-- `Context` from `models.py` (free-form metadata and the optional attached
`RobotState` omitted).  Pydantic validates `max_messages ≥ 1`. -/
structure Context where
  context_id : String
  type : ContextType
  name : String
  creator_id : String
  participants : List String
  messages : List ChatMessage
  max_messages : Nat
  status : ContextStatus
  created_at : Int
  updated_at : Int
  expires_at : Option Int
deriving DecidableEq, Repr

/-- Python's `xs[i:]` slice for an `Int` index (negative indices count from
the end). -/
def pySliceFrom {α : Type} (xs : List α) (i : Int) : List α :=
  if i < 0 then xs.drop (xs.length - (-i).toNat) else xs.drop i.toNat

/-- The message-trimming step of `ContextManager.add_message`: after the
append, `if len > max_messages: messages = messages[-max_messages:]`. -/
def trimMessages (msgs : List ChatMessage) (maxMessages : Nat) : List ChatMessage :=
  if msgs.length > maxMessages then pySliceFrom msgs (-(maxMessages : Int)) else msgs

/-- `ContextManager.add_message` on a fetched context object: build the
`ChatMessage`, append it, bump `updated_at`, trim to `max_messages`
(the durable per-message table append and the `Save` call are external
effects that do not alter the returned session object). -/
def addMessageCtx (ctx : Context) (msg : ChatMessage) (now : Int) : Context :=
  let appended := ctx.messages ++ [msg]
  { ctx with messages := trimMessages appended ctx.max_messages, updated_at := now }

/-- `ContextManager.add_message` at the manager level: a missing context
yields `false` with no change. -/
def addMessage (ctx? : Option Context) (msg : ChatMessage)
    (now : Int) : Bool × Option Context :=
  match ctx? with
  | none => (false, none)
  | some ctx => (true, some (addMessageCtx ctx msg now))

/-- `ContextManager.get_messages`: `limit=None` and `limit=0` are both falsy
in `if limit and len(messages) > limit`, so they return the whole history;
otherwise the slice `messages[-limit:]` is taken when the history is longer
than `limit`. -/
def getMessages (ctx? : Option Context) (limit : Option Int) : List ChatMessage :=
  match ctx? with
  | none => []
  | some ctx =>
    let msgs := ctx.messages
    match limit with
    | none => msgs
    | some l =>
      if l ≠ 0 ∧ (msgs.length : Int) > l then pySliceFrom msgs (-l) else msgs

/-! ## core/context.py — hybrid storage

The cache collaborator and the durable-store collaborator are embedded as
key→context tables with a `failing` flag: a failing backend models the
`except` branch of the corresponding `save` (the write raises, the wrapper
returns `False`). -/

/-- Upsert into a key→context table (Redis `set`, and the repository's
create-or-update in `DatabaseContextStorage.save`). -/
def storePut (tbl : List (String × Context)) (ctx : Context) : List (String × Context) :=
  if tbl.any (fun p => p.fst = ctx.context_id) then
    tbl.map (fun p => if p.fst = ctx.context_id then (p.fst, ctx) else p)
  else
    tbl ++ [(ctx.context_id, ctx)]

/-- State of the Redis cache backend. -/
structure CacheStore where
  entries : List (String × Context)
  failing : Bool
deriving DecidableEq, Repr

/-- State of the durable database backend. -/
structure DbStore where
  rows : List (String × Context)
  failing : Bool
deriving DecidableEq, Repr

/-- `RedisContextStorage.save`: `True` on success, `False` when the backend
raises. -/
def redisSave (cs : CacheStore) (ctx : Context) : Bool × CacheStore :=
  if cs.failing then (false, cs)
  else (true, { cs with entries := storePut cs.entries ctx })

/-- `DatabaseContextStorage.save`: create-or-update; `True` on success,
`False` when the backend raises. -/
def dbSave (ds : DbStore) (ctx : Context) : Bool × DbStore :=
  if ds.failing then (false, ds)
  else (true, { ds with rows := storePut ds.rows ctx })

/-- `HybridContextStorage.save`: the cache write, then the durable write
(both always attempted), returning the conjunction of the two results. -/
def hybridSave (cs : CacheStore) (ds : DbStore)
    (ctx : Context) : Bool × CacheStore × DbStore :=
  let c := redisSave cs ctx
  let d := dbSave ds ctx
  (c.fst && d.fst, c.snd, d.snd)

/-! ## core/intent.py — IntentRecognizer

Input text is embedded as `List Char` (Python `len`/`in` are character
count and substring containment).  A compiled regex is embedded as an
opaque search predicate `List Char → Bool`. -/

/-- `IntentType` from `state.py`. -/
inductive IntentType where
  | chat
  | weather
  | role_play
  | context_create
  | context_join
  | context_leave
  | context_end
  | user_ban
  | command
  | unknown
deriving DecidableEq, Repr

/-- `a` is a prefix of `b` (character lists). -/
def hasPre : List Char → List Char → Bool
  | [], _ => true
  | _ :: _, [] => false
  | a :: as, b :: bs => a == b && hasPre as bs

/-- Python's substring containment `kw in text`. -/
def hasSub (kw : List Char) : List Char → Bool
  | [] => kw.isEmpty
  | c :: t => hasPre kw (c :: t) || hasSub kw t

/-- `IntentRule` from `intent.py`: the rule together with its compiled
pattern predicates. -/
structure IntentRule where
  intent : IntentType
  keywords : List (List Char)
  patterns : List (List Char → Bool)
  priority : Int
  description : String

/-- `IntentResult` from `state.py`. -/
structure IntentResult where
  intent : IntentType
  confidence : ℚ
  raw_input : List Char
  entities : List (String × String)
  reasoning : String

/-- The command test of `EntityHelper.extract_intent_hints`:
`text.startswith("/") or text.startswith("！")`. -/
def hasCommandHint (text : List Char) : Bool :=
  text.head? == some '/' || text.head? == some '！'

/-- The command name of `EntityHelper.extract_intent_hints`: the first
whitespace-delimited token of `text[1:]`, when one exists. -/
def extractCommand (text : List Char) : Option (List Char) :=
  let rest := (text.drop 1).dropWhile Char.isWhitespace
  if rest.isEmpty then none
  else some (rest.takeWhile (fun c => !c.isWhitespace))

/-- `IntentRecognizer._calculate_keyword_confidence`:
`min(0.7 + min(match_count*0.1, 0.2), 1.0) * (1.0 if len(text) < 20 else 0.9)`,
and `0` when no keyword matches. -/
def keywordConfidence (text : List Char) (keywords : List (List Char)) : ℚ :=
  let matchCount := (keywords.filter (fun kw => hasSub kw text)).length
  if matchCount = 0 then 0
  else
    let bonus : ℚ := min ((matchCount : ℚ) * (1 / 10)) (2 / 10)
    let lengthFactor : ℚ := if text.length < 20 then 1 else 9 / 10
    (min (7 / 10 + bonus) 1) * lengthFactor

/-- The priority-ordered rule loop of `IntentRecognizer._recognize_by_rules`:
skip COMMAND rules; first a keyword containment test, then the rule's
compiled patterns; fall through to CHAT with confidence 0.5. -/
def rulesLoop (text : List Char) : List IntentRule → IntentResult
  | [] =>
    { intent := IntentType.chat, confidence := 1 / 2, raw_input := text,
      entities := [],
      reasoning := "No specific pattern matched, default to CHAT" }
  | r :: rest =>
    if r.intent = IntentType.command then rulesLoop text rest
    else if !r.keywords.isEmpty && r.keywords.any (fun kw => hasSub kw text) then
      let d := r.description
      { intent := r.intent, confidence := keywordConfidence text r.keywords,
        raw_input := text, entities := [],
        reasoning := s!"Keyword match: {d}" }
    else if !r.patterns.isEmpty && r.patterns.any (fun p => p text) then
      let d := r.description
      { intent := r.intent, confidence := 17 / 20, raw_input := text,
        entities := [],
        reasoning := s!"Pattern match: {d}" }
    else rulesLoop text rest

/-- `IntentRecognizer._recognize_by_rules`: the COMMAND fast path (checked
whenever the text carries a command marker and some COMMAND rule keyword
occurs in it), then the priority loop. -/
def recognizeByRules (rules : List IntentRule) (text : List Char) : IntentResult :=
  if hasCommandHint text
      && rules.any (fun r =>
           r.intent = IntentType.command
             && r.keywords.any (fun kw => hasSub kw text)) then
    let cmd := String.mk ((extractCommand text).getD [])
    { intent := IntentType.command, confidence := 19 / 20, raw_input := text,
      entities := [("command", cmd)],
      reasoning := s!"Command detected: /{cmd}" }
  else
    rulesLoop text rules

/-- Python `str.strip()` on a character list. -/
def stripWs (text : List Char) : List Char :=
  ((text.dropWhile Char.isWhitespace).reverse.dropWhile Char.isWhitespace).reverse

/-- `IntentRecognizer.recognize_sync`: strip, return UNKNOWN/0 on empty
input, otherwise run the rule matcher. -/
def recognizeSync (rules : List IntentRule) (text : List Char) : IntentResult :=
  let t := stripWs text
  if t.isEmpty then
    { intent := IntentType.unknown, confidence := 0, raw_input := t,
      entities := [], reasoning := "Empty input" }
  else
    recognizeByRules rules t

/-! ## core/state.py — RobotState and results -/

/-- `ProcessingStage` from `state.py`. -/
inductive ProcessingStage where
  | received
  | preprocessing
  | intent_classifying
  | context_loading
  | processing
  | postprocessing
  | completed
  | failed
deriving DecidableEq, Repr

/-- `RobotState` from `state.py` (conversation history, retry counter,
role-play fields and timestamps omitted; entities as a string map). -/
structure RobotState where
  message_id : String
  user_id : String
  user_name : String
  group_id : Option String
  message_content : String
  message_type : String
  intent : IntentType
  intent_confidence : ℚ
  processing_stage : ProcessingStage
  context_id : Option String
  context_type : Option String
  response : String
  need_response : Bool
  error_message : String
  error_code : Option String
  entities : List (String × String)

/-- `create_initial_state` from `state.py`. -/
def createInitialState (msgId uid uname : String) (groupId : Option String)
    (content mtype : String) : RobotState :=
  { message_id := msgId
    user_id := uid
    user_name := uname
    group_id := groupId
    message_content := content
    message_type := mtype
    intent := IntentType.unknown
    intent_confidence := 0
    processing_stage := ProcessingStage.received
    context_id := none
    context_type := none
    response := ""
    need_response := true
    error_message := ""
    error_code := none
    entities := [] }

/-- `MessageProcessingResult` from `state.py` (token counter omitted; the
wall-clock elapsed time is not modelled and fixed at 0). -/
structure MessageProcessingResult where
  success : Bool
  response : String
  error : Option String
  processing_time_ms : Int
  state_snapshot : Option RobotState

/-! ## core/langgraph.py — the error handler node -/

/-- `LangGraphManager._error_handler_node`: flip the stage to FAILED and
select the user-safe apology string by error code. -/
def errorHandlerNode (st : RobotState) : RobotState :=
  let resp :=
    if st.error_code == some "INTENT_CLASSIFY_ERROR" then "抱歉，我无法理解您的意思。"
    else if st.error_code == some "CONTEXT_LOAD_ERROR" then "抱歉，加载对话上下文时出现错误。"
    else if st.error_code == some "RESPONSE_GENERATE_ERROR" then "抱歉，生成回复时出现错误。"
    else "抱歉，处理您的请求时出现错误。"
  { st with processing_stage := ProcessingStage.failed, response := resp }

/-! ## core/router.py — MessageRouter -/

/-- The `allowed`/`reason`/`error_code` dictionary built by
`MessageRouter._pre_check`. -/
structure PreCheckResult where
  allowed : Bool
  reason : String
  error_code : Option String
deriving DecidableEq, Repr

/-- `MessageRouter._pre_check`: ban check, `check_quota` (requested tokens
0, failure mapped to QUOTA_EXCEEDED), `check_minute_limit`
(RATE_LIMIT_EXCEEDED), `check_daily_limit` (DAILY_LIMIT_EXCEEDED), in that
order.  Returns the decision and the (possibly lazily created or
daily-reset) quota row. -/
def preCheck (banRec : Option BanRecord) (stored : Option TokenQuota)
    (uid : String) (now : Int) : PreCheckResult × Option TokenQuota :=
  if isBanned banRec now then
    let reason :=
      match getRemainingBanTime banRec now with
      | none => "您已被永久封禁。"
      | some rem =>
        if rem > 0 then
          let minutes := rem / 60
          s!"您已被封禁，剩余 {minutes} 分钟。"
        else "您已被封禁。"
    ({ allowed := false, reason := reason, error_code := some "USER_BANNED" },
     stored)
  else
    let cq := checkQuota stored uid 0 now
    let stored1 := some cq.snd
    if !cq.fst.fst then
      ({ allowed := false, reason := cq.fst.snd,
         error_code := some "QUOTA_EXCEEDED" }, stored1)
    else if !checkMinuteLimit stored1 uid now then
      ({ allowed := false, reason := "请求过于频繁，请稍后再试。",
         error_code := some "RATE_LIMIT_EXCEEDED" }, stored1)
    else if !checkDailyLimit stored1 uid now then
      ({ allowed := false, reason := "今日配额已用完，请明天再试。",
         error_code := some "DAILY_LIMIT_EXCEEDED" }, stored1)
    else
      ({ allowed := true, reason := "", error_code := none }, stored1)

/-- `MessageType(message_type) if message_type in MessageType.__members__
else MessageType.TEXT` from `route_message`. -/
def parseMessageType (s : String) : MessageType :=
  if s = "text" then MessageType.text
  else if s = "image" then MessageType.image
  else if s = "voice" then MessageType.voice
  else if s = "system" then MessageType.system
  else if s = "command" then MessageType.command
  else MessageType.text

/-- The session-layer collaborators invoked by `route_message`, over an
abstract session-store state `σ`: `_get_or_create_context` and
`ContextManager.add_message` (arguments: store, context id, sender id,
sender name, content, message type, is-system flag). -/
structure SessionOps (σ : Type) where
  getOrCreateContext : σ → String → String → Option String → ContextType → Option Context × σ
  addMessage : σ → String → String → String → String → MessageType → Bool → Bool × σ

/-- `MessageRouter.route_message` (the non-exception path; the router's
catch-all that converts an escaped exception into a failed result is not
reachable in this total embedding).  Steps: pre-check with fast rejection,
initial state, context type resolution, get-or-create context, append the
user message, run the pipeline (`process`, the injected
`langgraph_manager.process` collaborator), append the robot response when a
context exists and the response is non-empty, and return success. -/
def routeMessage {σ : Type} (ops : SessionOps σ) (process : RobotState → RobotState)
    (banRec : Option BanRecord) (stored : Option TokenQuota)
    (msgId uid uname content : String) (groupId : Option String)
    (mtype : String) (now : Int)
    (sessions : σ) : MessageProcessingResult × σ × Option TokenQuota :=
  let pc := preCheck banRec stored uid now
  if !pc.fst.allowed then
    ({ success := false, response := pc.fst.reason, error := pc.fst.error_code,
       processing_time_ms := 0, state_snapshot := none }, sessions, pc.snd)
  else
    let st0 := createInitialState msgId uid uname groupId content mtype
    let ctype :=
      match groupId with
      | none => ContextType.privateCtx
      | some _ => ContextType.groupCtx
    let st1 := { st0 with context_type := some ctype.val }
    let goc := ops.getOrCreateContext sessions uid uname groupId ctype
    let afterUser : RobotState × σ :=
      match goc.fst with
      | some ctx =>
        ({ st1 with context_id := some ctx.context_id },
         (ops.addMessage goc.snd ctx.context_id uid uname content
            (parseMessageType mtype) false).snd)
      | none => (st1, goc.snd)
    let final := process afterUser.fst
    let response := final.response
    let s3 :=
      match goc.fst with
      | some ctx =>
        if response ≠ "" then
          (ops.addMessage afterUser.snd ctx.context_id "robot" "Robot" response
             MessageType.text false).snd
        else afterUser.snd
      | none => afterUser.snd
    ({ success := true, response := response, error := none,
       processing_time_ms := 0, state_snapshot := some final }, s3, pc.snd)

/-! ## Auxiliary predicates and concrete fixtures -/

/-- A rule that `rulesLoop` passes over without returning: either a COMMAND
rule (skipped) or a rule whose keywords and patterns both fail on the text. -/
def ruleSkipped (text : List Char) (r : IntentRule) : Bool :=
  if r.intent = IntentType.command then true
  else
    !(!r.keywords.isEmpty && r.keywords.any (fun kw => hasSub kw text))
      && !(!r.patterns.isEmpty && r.patterns.any (fun p => p text))

/-- A quota row whose total and daily budgets are ample but whose minute
window is full (3 requests in the last 60 s against `minute_limit = 3`). -/
def minuteFullQuota : TokenQuota :=
  { user_id := "u1"
    total_quota := 50000
    used := 0
    daily_limit := 5000
    daily_used := 0
    daily_reset := 1000000
    minute_limit := 3
    minute_requests := [90, 95, 99] }

/-- A quota row whose daily budget is exhausted but whose `daily_reset`
instant (50) is already in the past at the call time used below. -/
def staleDailyQuota : TokenQuota :=
  { user_id := "u2"
    total_quota := 50000
    used := 0
    daily_limit := 10
    daily_used := 10
    daily_reset := 50
    minute_limit := 200
    minute_requests := [] }

/-- A quota row with the total budget exhausted and the daily reset still in
the future. -/
def drainedQuota : TokenQuota :=
  { user_id := "u3"
    total_quota := 100
    used := 100
    daily_limit := 5000
    daily_used := 0
    daily_reset := 1000000
    minute_limit := 200
    minute_requests := [] }

/-- A temporary ban expiring at time 3600. -/
def banUntil3600 : BanRecord :=
  { user_id := "u4"
    reason := BanReason.manual
    ban_type := BanType.temporary
    started_at := 0
    expires_at := some 3600
    details := "" }

/-- Session ops over a counter state: every session-layer call bumps the
counter, so an unchanged counter certifies that no session operation ran. -/
def countingOps : SessionOps Nat :=
  { getOrCreateContext := fun s _ _ _ _ => (none, s + 1)
    addMessage := fun s _ _ _ _ _ _ => (true, s + 2) }

/-- A pipeline run in which the intent classifier raises: the
`_intent_classifier_node` exception branch records the error, and the graph
routes the state into `_error_handler_node` (per `_route_by_intent`). -/
def failingPipeline (st : RobotState) : RobotState :=
  errorHandlerNode
    { st with
        error_message := "boom"
        error_code := some "INTENT_CLASSIFY_ERROR"
        processing_stage := ProcessingStage.failed
        intent := IntentType.unknown }

/-- A sample chat message. -/
def sampleMsg (i : Nat) : ChatMessage :=
  { message_id := toString i
    sender_id := "s"
    sender_name := "n"
    role := MessageRole.user
    content := toString i
    message_type := MessageType.text
    timestamp := 0
    is_system := false }

/-- A private context holding messages "1" "2" "3" with a cap of 3. -/
def sampleCtx : Context :=
  { context_id := "c1"
    type := ContextType.privateCtx
    name := "sample"
    creator_id := "u"
    participants := ["u"]
    messages := [sampleMsg 1, sampleMsg 2, sampleMsg 3]
    max_messages := 3
    status := ContextStatus.active
    created_at := 0
    updated_at := 0
    expires_at := none }

/-- The WEATHER rule of `DEFAULT_INTENT_RULES` (keyword slice; a pattern
searching for "雨"). -/
def weatherRule : IntentRule :=
  { intent := IntentType.weather
    keywords := ["天气".data, "气温".data]
    patterns := [fun t => hasSub "雨".data t]
    priority := 10
    description := "天气查询意图" }

/-- The ROLE_PLAY rule of `DEFAULT_INTENT_RULES` (keyword slice; a pattern
searching for "扮演"). -/
def rolePlayRule : IntentRule :=
  { intent := IntentType.role_play
    keywords := ["扮演".data, "角色".data]
    patterns := [fun t => hasSub "扮演".data t]
    priority := 15
    description := "角色扮演意图" }

/-- A tracker whose request window already holds ten timestamps within the
trailing 60 s of time 100. -/
def tenRequests : TrackState :=
  { requests := [41, 42, 43, 44, 45, 46, 47, 48, 49, 50]
    messages := []
    contents := [] }

/-! ## Theorems -/

/-- C7: a PERMANENT ban is active at every time; a TEMPORARY ban with expiry
`t` is active exactly when `now < t`, so at `now = t` it is already
inactive. -/
theorem ban_record_active_boundary (r : BanRecord) (t : Int)
    (hty : r.ban_type = BanType.temporary)
    (hexp : r.expires_at = some t) :
    (∀ now : Int, (r.is_active now = true ↔ now < t))
      ∧ r.is_active t = false
      ∧ (∀ s : BanRecord, s.ban_type = BanType.permanent →
          ∀ now : Int, s.is_active now = true) := by
  refine ⟨?_, ?_, ?_⟩
  · intro now
    simp [BanRecord.is_active, hty, hexp]
  · simp [BanRecord.is_active, hty, hexp]
  · intro s hs now
    simp [BanRecord.is_active, hs]

/-- Witness for C7 at the concrete temporary ban expiring at 3600. -/
theorem ban_record_active_boundary_witness :
    (∀ now : Int, (banUntil3600.is_active now = true ↔ now < 3600))
      ∧ banUntil3600.is_active 3600 = false
      ∧ (∀ s : BanRecord, s.ban_type = BanType.permanent →
          ∀ now : Int, s.is_active now = true) :=
  ban_record_active_boundary banUntil3600 3600 rfl rfl

/-- C1 (divergence witness): for a user whose total and daily budgets are
ample but whose minute window is full, `_pre_check` returns error code
QUOTA_EXCEEDED — not RATE_LIMIT_EXCEEDED as the claim states —because
`check_quota` itself fails on the minute window and every `check_quota`
failure is mapped to QUOTA_EXCEEDED, leaving the dedicated
RATE_LIMIT_EXCEEDED step unreachable. -/
theorem pre_check_minute_window_full_maps_to_quota_exceeded :
    minuteFullQuota.remaining = 50000
      ∧ minuteFullQuota.daily_remaining = 5000
      ∧ minuteFullQuota.is_minute_limit_exceeded 100 = true
      ∧ (preCheck none (some minuteFullQuota) "u1" 100).fst.error_code
          = some "QUOTA_EXCEEDED"
      ∧ (preCheck none (some minuteFullQuota) "u1" 100).fst.allowed = false
      ∧ (preCheck none (some minuteFullQuota) "u1" 100).fst.error_code
          ≠ some "RATE_LIMIT_EXCEEDED" := by
  refine ⟨rfl, rfl, rfl, rfl, rfl, ?_⟩
  decide

/-- C10: `get_messages` truncates to the most recent `limit` messages when
`0 < limit < length`; `limit = 0` is falsy and returns the entire history,
exactly like passing no limit. -/
theorem get_messages_zero_and_positive_limit (ctx : Context) (l : Int)
    (h0 : 0 < l) (hl : l < (ctx.messages.length : Int)) :
    getMessages (some ctx) (some l)
        = ctx.messages.drop (ctx.messages.length - l.toNat)
      ∧ (getMessages (some ctx) (some l)).length = l.toNat
      ∧ getMessages (some ctx) (some 0) = ctx.messages
      ∧ getMessages (some ctx) none = ctx.messages := by
  have hcond : l ≠ 0 ∧ (ctx.messages.length : Int) > l := ⟨by omega, hl⟩
  have hneg : -l < 0 := by omega
  refine ⟨?_, ?_, ?_, rfl⟩
  · simp only [getMessages, pySliceFrom, if_pos hcond, if_pos hneg, neg_neg]
  · simp only [getMessages, pySliceFrom, if_pos hcond, if_pos hneg, neg_neg,
      List.length_drop]
    omega
  · simp [getMessages]

/-- Witness for C10 at the sample context (messages "1","2","3") with
limit 2. -/
theorem get_messages_zero_and_positive_limit_witness :
    getMessages (some sampleCtx) (some 2)
        = sampleCtx.messages.drop (sampleCtx.messages.length - (2 : Int).toNat)
      ∧ (getMessages (some sampleCtx) (some 2)).length = (2 : Int).toNat
      ∧ getMessages (some sampleCtx) (some 0) = sampleCtx.messages
      ∧ getMessages (some sampleCtx) none = sampleCtx.messages :=
  get_messages_zero_and_positive_limit sampleCtx 2 (by decide) (by decide)

/-- C4: after `add_message`, the session's message list is capped at
`max_messages` and equals the suffix of the appended history, so exactly
the oldest messages are dropped and arrival order is preserved. -/
theorem add_message_bounded_suffix (ctx : Context) (msg : ChatMessage)
    (now : Int) (hmax : 1 ≤ ctx.max_messages) :
    ((addMessageCtx ctx msg now).messages).length ≤ ctx.max_messages
      ∧ (addMessageCtx ctx msg now).messages
          = (ctx.messages ++ [msg]).drop
              ((ctx.messages ++ [msg]).length - ctx.max_messages)
      ∧ List.IsSuffix ((addMessageCtx ctx msg now).messages)
          (ctx.messages ++ [msg]) := by
  have hneg : -(ctx.max_messages : Int) < 0 := by omega
  have heq : (addMessageCtx ctx msg now).messages
      = (ctx.messages ++ [msg]).drop
          ((ctx.messages ++ [msg]).length - ctx.max_messages) := by
    show trimMessages (ctx.messages ++ [msg]) ctx.max_messages = _
    unfold trimMessages pySliceFrom
    by_cases hlen : (ctx.messages ++ [msg]).length > ctx.max_messages
    · rw [if_pos hlen, if_pos hneg, neg_neg, Int.toNat_natCast]
    · rw [if_neg hlen]
      have h0 : (ctx.messages ++ [msg]).length - ctx.max_messages = 0 := by
        omega
      rw [h0, List.drop_zero]
  refine ⟨?_, heq, ?_⟩
  · rw [heq, List.length_drop]
    omega
  · rw [heq]
    exact List.drop_suffix _ _

/-- Witness for C4 at the sample context (cap 3, three messages) plus a
fourth message. -/
theorem add_message_bounded_suffix_witness :
    ((addMessageCtx sampleCtx (sampleMsg 4) 10).messages).length
        ≤ sampleCtx.max_messages
      ∧ (addMessageCtx sampleCtx (sampleMsg 4) 10).messages
          = (sampleCtx.messages ++ [sampleMsg 4]).drop
              ((sampleCtx.messages ++ [sampleMsg 4]).length
                - sampleCtx.max_messages)
      ∧ List.IsSuffix ((addMessageCtx sampleCtx (sampleMsg 4) 10).messages)
          (sampleCtx.messages ++ [sampleMsg 4]) :=
  add_message_bounded_suffix sampleCtx (sampleMsg 4) 10 (by decide)

/-- C8: the hybrid store's save returns true exactly when both the cache
write and the durable write succeed, and each backend always ends in its
own write's post-state — so a failure of one write never prevents the
attempt of the other. -/
theorem hybrid_save_strict_and (cs : CacheStore) (ds : DbStore)
    (ctx : Context) :
    ((hybridSave cs ds ctx).fst = true
        ↔ (redisSave cs ctx).fst = true ∧ (dbSave ds ctx).fst = true)
      ∧ (hybridSave cs ds ctx).snd.fst = (redisSave cs ctx).snd
      ∧ (hybridSave cs ds ctx).snd.snd = (dbSave ds ctx).snd := by
  refine ⟨?_, rfl, rfl⟩
  show ((redisSave cs ctx).fst && (dbSave ds ctx).fst) = true ↔ _
  exact (Bool.and_eq_true _ _).to_iff

/-- C6: the rapid-request heuristic runs first in `detect_abuse`: when ten
timestamps already sit inside the trailing 60 s window, the next call —
whatever its content or token count — prunes the window, appends the
current timestamp (making the count 11 > 10) and returns
`(true, "请求过于频繁")` without consulting the token-burst, spam or
repeated-content heuristics. -/
theorem detect_abuse_rapid_requests_first (tr : TrackState) (content : String)
    (tokens_used : Nat) (now : Int)
    (h : 10 ≤ (tr.requests.filter (fun ts => now - ts < 60)).length) :
    detectAbuse defaultDetectionRules tr content tokens_used now
      = ((true, some "请求过于频繁"),
         { tr with requests :=
            (tr.requests.filter (fun ts => now - ts < 60)) ++ [now] }) := by
  have hcnt :
      ((tr.requests.filter (fun ts => now - ts < 60)) ++ [now]).length > 10 := by
    rw [List.length_append]
    simp only [List.length_singleton]
    omega
  unfold detectAbuse detectRapidRequests defaultDetectionRules
  simp only [decide_eq_true_eq]
  rw [if_pos]
  exact hcnt

/-- Witness for C6: the eleventh request at time 100 after ten requests at
times 41–50. -/
theorem detect_abuse_rapid_requests_first_witness :
    detectAbuse defaultDetectionRules tenRequests "hello" 0 100
      = ((true, some "请求过于频繁"),
         { tenRequests with requests :=
            (tenRequests.requests.filter (fun ts => 100 - ts < 60)) ++ [100] }) :=
  detect_abuse_rapid_requests_first tenRequests "hello" 0 100 (by decide)

/-- C3 (refuting instance): with `daily_used = daily_limit = 10` but the
`daily_reset` instant already past, `Consume(u, 5)` — although 5 exceeds
the quota record's daily remaining of 0 — returns true and increments
`used`, because `check_quota`'s fetch first performs the lazy daily reset. -/
theorem consume_lazy_reset_counterexample :
    staleDailyQuota.daily_remaining < 5
      ∧ (consume (some staleDailyQuota) "u2" 5 100).fst = true
      ∧ (consume (some staleDailyQuota) "u2" 5 100).snd.used = 5
      ∧ (consume (some staleDailyQuota) "u2" 5 100).snd.daily_used = 5 := by
  refine ⟨?_, rfl, rfl, rfl⟩
  decide

/-- C3 (amended): measured against the quota actually fetched by
`check_quota` — which is the stored record after the lazy daily reset
(`daily_used := 0`, `daily_reset += 24 h`) whenever `now ≥ daily_reset`,
and the record itself otherwise — `Consume(u, n)` returns false and
performs no consumption mutation when n exceeds the fetched total remaining
or the fetched daily remaining: the result state is exactly the fetched
quota, its `used` equals the stored `used`, and when no daily reset fired
its `daily_used` also equals the stored `daily_used`. -/
theorem consume_reject_no_mutation (q : TokenQuota) (uid : String)
    (tokens : Nat) (now : Int)
    (h : (getQuota (some q) uid now).remaining < tokens
        ∨ (getQuota (some q) uid now).daily_remaining < tokens) :
    consume (some q) uid tokens now = (false, getQuota (some q) uid now)
      ∧ (getQuota (some q) uid now).used = q.used
      ∧ (now < q.daily_reset → getQuota (some q) uid now = q) := by
  refine ⟨?_, ?_, ?_⟩
  · unfold consume checkQuota
    by_cases h1 : (getQuota (some q) uid now).remaining < tokens
    · simp [h1]
    · have h2 : (getQuota (some q) uid now).daily_remaining < tokens :=
        h.resolve_left h1
      simp [h1, h2]
  · show (if q.daily_reset ≤ now then resetDailyQuota q now else q).used = q.used
    split
    · rfl
    · rfl
  · intro hlt
    show (if q.daily_reset ≤ now then resetDailyQuota q now else q) = q
    rw [if_neg (by omega)]

/-- Witness for C3 (amended) at a drained total quota well before its daily
reset. -/
theorem consume_reject_no_mutation_witness :
    consume (some drainedQuota) "u3" 5 100
        = (false, getQuota (some drainedQuota) "u3" 100)
      ∧ (getQuota (some drainedQuota) "u3" 100).used = drainedQuota.used
      ∧ (100 < drainedQuota.daily_reset →
          getQuota (some drainedQuota) "u3" 100 = drainedQuota) :=
  consume_reject_no_mutation drainedQuota "u3" 5 100 (Or.inl (by decide))

/-- C2 (refuting instance): a pipeline run whose intent classifier fails —
the final state records `error_message = "boom"` and ends FAILED through
the error handler — still makes `route_message` return `success = true`
with `error = none`; the pipeline error is only logged. -/
theorem route_message_success_despite_pipeline_error :
    (routeMessage countingOps failingPipeline none none
        "m1" "u" "nick" "hello" none "text" 100 0).fst.success = true
      ∧ ((routeMessage countingOps failingPipeline none none
            "m1" "u" "nick" "hello" none "text" 100 0).fst.state_snapshot.map
          RobotState.error_message) = some "boom"
      ∧ (routeMessage countingOps failingPipeline none none
            "m1" "u" "nick" "hello" none "text" 100 0).fst.error = none := by
  refine ⟨rfl, rfl, rfl⟩

/-- C2 (amended): whenever the pre-check allows the message, the
non-exception path of `route_message` returns `success = true` with
`error = none` and the pipeline's final state attached — for every session
layer and every pipeline outcome, including final states that record a
pipeline error; `success = false` arises only from the denial fast path or
from the router's catch-all for escaped exceptions. -/
theorem route_message_success_after_admission {σ : Type} (ops : SessionOps σ)
    (process : RobotState → RobotState) (banRec : Option BanRecord)
    (stored : Option TokenQuota) (msgId uid uname content : String)
    (groupId : Option String) (mtype : String) (now : Int) (sessions : σ)
    (h : (preCheck banRec stored uid now).fst.allowed = true) :
    (routeMessage ops process banRec stored msgId uid uname content groupId
        mtype now sessions).fst.success = true
      ∧ (routeMessage ops process banRec stored msgId uid uname content
            groupId mtype now sessions).fst.error = none := by
  simp [routeMessage, h]

/-- Witness for C2 (amended) on a fresh user (no ban, lazily created
default quota). -/
theorem route_message_success_after_admission_witness :
    (routeMessage countingOps failingPipeline none none
        "m2" "u9" "nick" "hi" none "text" 100 0).fst.success = true
      ∧ (routeMessage countingOps failingPipeline none none
          "m2" "u9" "nick" "hi" none "text" 100 0).fst.error = none :=
  route_message_success_after_admission countingOps failingPipeline none none
    "m2" "u9" "nick" "hi" none "text" 100 0 (by decide)

/-- C5: when the pre-check denies (here: any denial, in particular an
active ban), `route_message` returns `success = false` with the denial
reason as the response and the denial error code, and the session store is
returned untouched — no session-layer operation runs, for every possible
session layer. -/
theorem route_message_denied_no_session_mutation {σ : Type}
    (ops : SessionOps σ) (process : RobotState → RobotState)
    (banRec : Option BanRecord) (stored : Option TokenQuota)
    (msgId uid uname content : String) (groupId : Option String)
    (mtype : String) (now : Int) (sessions : σ)
    (h : (preCheck banRec stored uid now).fst.allowed = false) :
    routeMessage ops process banRec stored msgId uid uname content groupId
        mtype now sessions
      = ({ success := false,
           response := (preCheck banRec stored uid now).fst.reason,
           error := (preCheck banRec stored uid now).fst.error_code,
           processing_time_ms := 0,
           state_snapshot := none },
         sessions,
         (preCheck banRec stored uid now).snd) := by
  simp [routeMessage, h]

/-- Witness for C5: a user banned until 3600, at time 100, over the
counting session layer — the counter stays 0, so no session operation ran,
and the ban-specific reason is returned. -/
theorem route_message_denied_no_session_mutation_witness :
    routeMessage countingOps failingPipeline (some banUntil3600)
        (some minuteFullQuota) "m3" "u4" "nick" "hi" none "text" 100 0
      = ({ success := false,
           response := (preCheck (some banUntil3600) (some minuteFullQuota)
              "u4" 100).fst.reason,
           error := (preCheck (some banUntil3600) (some minuteFullQuota)
              "u4" 100).fst.error_code,
           processing_time_ms := 0,
           state_snapshot := none },
         0,
         (preCheck (some banUntil3600) (some minuteFullQuota) "u4" 100).snd) :=
  route_message_denied_no_session_mutation countingOps failingPipeline
    (some banUntil3600) (some minuteFullQuota) "m3" "u4" "nick" "hi" none
    "text" 100 0 (by decide)

/-- A rule the loop passes over does not affect the result. -/
theorem rulesLoop_skip (text : List Char) (r' : IntentRule)
    (rest : List IntentRule) (h : ruleSkipped text r' = true) :
    rulesLoop text (r' :: rest) = rulesLoop text rest := by
  unfold ruleSkipped at h
  by_cases hc : r'.intent = IntentType.command
  · conv_lhs => rw [rulesLoop]
    rw [if_pos hc]
  · rw [if_neg hc] at h
    obtain ⟨hkw, hpat⟩ := Bool.and_eq_true _ _ ▸ h
    rw [Bool.not_eq_true'] at hkw hpat
    conv_lhs => rw [rulesLoop]
    rw [if_neg hc, hkw, hpat]
    simp

/-- A block of passed-over rules at the head of the list does not affect
the result. -/
theorem rulesLoop_append_skip (text : List Char) (pre rest : List IntentRule)
    (hpre : ∀ r' ∈ pre, ruleSkipped text r' = true) :
    rulesLoop text (pre ++ rest) = rulesLoop text rest := by
  induction pre with
  | nil => rfl
  | cons a as ih =>
    rw [List.cons_append, rulesLoop_skip text a (as ++ rest)
      (hpre a (List.mem_cons_self a as))]
    exact ih (fun r' hr' => hpre r' (List.mem_cons_of_mem a hr'))

/-- C9: on non-command text, with every higher-priority rule passed over,
the first rule `r` that fires decides the result: a keyword hit returns
`r`'s intent with confidence
`min(0.7 + min(matchCount·0.1, 0.2), 1) · (0.9 if len ≥ 20 else 1)`;
failing that, a regex-pattern hit returns `r`'s intent with confidence
0.85 — no later rule is consulted. -/
theorem recognize_rules_first_match (pre post : List IntentRule)
    (r : IntentRule) (text : List Char)
    (hcmd : hasCommandHint text = false)
    (hpre : ∀ r' ∈ pre, ruleSkipped text r' = true)
    (hr : ¬ r.intent = IntentType.command) :
    ((!r.keywords.isEmpty && r.keywords.any fun kw => hasSub kw text) = true →
      (recognizeByRules (pre ++ r :: post) text).intent = r.intent
        ∧ (recognizeByRules (pre ++ r :: post) text).confidence
            = min (7 / 10 + min
                  (((r.keywords.filter fun kw => hasSub kw text).length : ℚ)
                    * (1 / 10))
                  (2 / 10)) 1
                * (if text.length < 20 then 1 else 9 / 10))
      ∧ ((!r.keywords.isEmpty && r.keywords.any fun kw => hasSub kw text)
            = false →
          (!r.patterns.isEmpty && r.patterns.any fun p => p text) = true →
        (recognizeByRules (pre ++ r :: post) text).intent = r.intent
          ∧ (recognizeByRules (pre ++ r :: post) text).confidence
              = 17 / 20) := by
  have htop : recognizeByRules (pre ++ r :: post) text
      = rulesLoop text (r :: post) := by
    unfold recognizeByRules
    rw [hcmd, Bool.false_and, if_neg (by simp)]
    exact rulesLoop_append_skip text pre (r :: post) hpre
  constructor
  · intro hk
    have hloop : rulesLoop text (r :: post)
        = (let d := r.description
           { intent := r.intent,
             confidence := keywordConfidence text r.keywords,
             raw_input := text, entities := [],
             reasoning := s!"Keyword match: {d}" }) := by
      conv_lhs => rw [rulesLoop]
      rw [if_neg hr, hk]
      simp
    have hcount :
        (r.keywords.filter fun kw => hasSub kw text).length ≠ 0 := by
      obtain ⟨-, hany⟩ := Bool.and_eq_true _ _ ▸ hk
      obtain ⟨kw, hkw, hsub⟩ := List.any_eq_true.mp hany
      have : kw ∈ r.keywords.filter fun kw => hasSub kw text :=
        List.mem_filter.mpr ⟨hkw, hsub⟩
      intro hlen
      rw [List.length_eq_zero] at hlen
      rw [hlen] at this
      exact List.not_mem_nil kw this
    refine ⟨by rw [htop, hloop], ?_⟩
    rw [htop, hloop]
    show keywordConfidence text r.keywords = _
    unfold keywordConfidence
    rw [if_neg hcount]
  · intro hk hp
    have hloop : rulesLoop text (r :: post)
        = (let d := r.description
           { intent := r.intent, confidence := 17 / 20,
             raw_input := text, entities := [],
             reasoning := s!"Pattern match: {d}" }) := by
      conv_lhs => rw [rulesLoop]
      rw [if_neg hr, hk, hp]
      simp
    exact ⟨by rw [htop, hloop], by rw [htop, hloop]⟩

/-- Witness for C9: "今天天气怎么样" against the ROLE_PLAY rule (passed
over) followed by the WEATHER rule, whose keyword "天气" fires
(1 match, length 7 < 20 ⇒ confidence 0.8). -/
theorem recognize_rules_first_match_witness :
    ((!weatherRule.keywords.isEmpty
        && weatherRule.keywords.any fun kw => hasSub kw "今天天气怎么样".data)
          = true →
      (recognizeByRules ([rolePlayRule] ++ weatherRule :: [])
          "今天天气怎么样".data).intent = weatherRule.intent
        ∧ (recognizeByRules ([rolePlayRule] ++ weatherRule :: [])
            "今天天气怎么样".data).confidence
            = min (7 / 10 + min
                  (((weatherRule.keywords.filter
                      fun kw => hasSub kw "今天天气怎么样".data).length : ℚ)
                    * (1 / 10))
                  (2 / 10)) 1
                * (if "今天天气怎么样".data.length < 20 then 1 else 9 / 10))
      ∧ ((!weatherRule.keywords.isEmpty
          && weatherRule.keywords.any fun kw => hasSub kw "今天天气怎么样".data)
            = false →
          (!weatherRule.patterns.isEmpty
            && weatherRule.patterns.any fun p => p "今天天气怎么样".data)
              = true →
        (recognizeByRules ([rolePlayRule] ++ weatherRule :: [])
            "今天天气怎么样".data).intent = weatherRule.intent
          ∧ (recognizeByRules ([rolePlayRule] ++ weatherRule :: [])
              "今天天气怎么样".data).confidence = 17 / 20) :=
  recognize_rules_first_match [rolePlayRule] [] weatherRule
    "今天天气怎么样".data (by decide)
    (by
      intro r' hr'
      rw [List.mem_singleton] at hr'
      rw [hr']
      decide)
    (by decide)

end QQRobot
